import Mathlib

/-!
Shallow embedding of the Hummingbot script `pmm_risk_volatility_trend.py`
(class `PMMRiskVolatilityTrend`), in exact rational arithmetic: every
Python float / `Decimal` value is modelled as a `ℚ` with its decimal value,
timestamps as `ℕ`, raised exceptions and failed indicator lookups as
`Option.none`.  External collaborators (the pandas_ta indicator library,
the exchange connector, the budget checker) are passed in as explicit
function arguments or data.
-/

namespace PMM

/-- One OHLCV candle sample of the rolling window (the strategy only ever
passes the window through to the external indicator library, so the field
values are opaque to the embedded code). -/
structure Candle where
  o : ℚ
  hi : ℚ
  lo : ℚ
  cl : ℚ
  vol : ℚ
deriving DecidableEq, Repr

/-- The configuration surface: the class attributes of
`PMMRiskVolatilityTrend` that the pricing logic reads. -/
structure Config where
  bid_spread_scalar : ℚ
  ask_spread_scalar : ℚ
  max_shift_spread : ℚ
  trend_scalar : ℚ
  inventory_skew_strength : ℚ
  candles_length : ℕ
  order_refresh_time : ℕ
  order_amount : ℚ
deriving DecidableEq, Repr

/-- The literal class-attribute values from the source:
`bid_spread_scalar = 100`, `ask_spread_scalar = 50`,
`max_shift_spread = 0.0005`, `trend_scalar = -1`,
`inventory_skew_strength = 0.5`, `candles_length = 30`,
`order_refresh_time = 15`, `order_amount = 0.01`. -/
def defaultConfig : Config :=
  ⟨100, 50, 1/2000, -1, 1/2, 30, 15, 1/100⟩

/-- Order side, `TradeType.BUY` / `TradeType.SELL`. -/
inductive Side where
  | buy
  | sell
deriving DecidableEq, Repr

/-- An `OrderCandidate` as constructed in `create_proposal` (trading pair,
order type and the `amount_quantized` flag are constants in the source and
elided). -/
structure OrderCandidate where
  side : Side
  amount : ℚ
  price : ℚ
deriving DecidableEq, Repr

/-- Line 69: `self.bid_spread = natr * self.bid_spread_scalar`. -/
def bidSpreadOf (cfg : Config) (natr : ℚ) : ℚ :=
  natr * cfg.bid_spread_scalar

/-- Line 70: `self.ask_spread = natr * self.ask_spread_scalar`. -/
def askSpreadOf (cfg : Config) (natr : ℚ) : ℚ :=
  natr * cfg.ask_spread_scalar

/-- Line 73:
`price_multiplier = ((rsi - 50) / 50) * self.max_shift_spread * self.trend_scalar`. -/
def priceMultiplierOf (cfg : Config) (rsi : ℚ) : ℚ :=
  ((rsi - 50) / 50) * cfg.max_shift_spread * cfg.trend_scalar

/-- Line 74: `shifted_price = raw_price * Decimal(str(1 + price_multiplier))`
(exact arithmetic: the float-to-string-to-Decimal round trip is the
identity in `ℚ`). -/
def shiftedPriceOf (cfg : Config) (raw_price rsi : ℚ) : ℚ :=
  raw_price * (1 + priceMultiplierOf cfg rsi)

/-- Line 78: `total_value = base * raw_price + quote`. -/
def totalValueOf (base quote raw_price : ℚ) : ℚ :=
  base * raw_price + quote

/-- Line 79:
`inventory_ratio = (base * raw_price) / total_value if total_value > 0 else Decimal("0.5")`. -/
def inventoryRatioOf (base quote raw_price : ℚ) : ℚ :=
  if 0 < totalValueOf base quote raw_price then
    (base * raw_price) / totalValueOf base quote raw_price
  else 1/2

/-- Line 80:
`skew = (Decimal("0.5") - inventory_ratio) * Decimal(self.inventory_skew_strength)`. -/
def skewOf (cfg : Config) (base quote raw_price : ℚ) : ℚ :=
  (1/2 - inventoryRatioOf base quote raw_price) * cfg.inventory_skew_strength

/-- Line 82: `self.reference_price = shifted_price * (Decimal("1.0") + skew)`. -/
def referencePriceOf (cfg : Config) (raw_price rsi base quote : ℚ) : ℚ :=
  shiftedPriceOf cfg raw_price rsi * (1 + skewOf cfg base quote raw_price)

/-- The three strategy fields overwritten by `update_indicators`
(lines 69, 70, 82). -/
structure IndicatorUpdate where
  bid_spread : ℚ
  ask_spread : ℚ
  reference_price : ℚ
deriving DecidableEq, Repr

/-- Lines 69-82 of `update_indicators`, given the two indicator values
already read from the dataframe: the pure composition of spreads, shift,
and inventory skew. -/
def composeParams (cfg : Config) (natr rsi raw_price base quote : ℚ) : IndicatorUpdate :=
  ⟨bidSpreadOf cfg natr, askSpreadOf cfg natr,
   referencePriceOf cfg raw_price rsi base quote⟩

/-- Modelled from the spec: the NATR/RSI computation itself lives in the
external pandas_ta library, not in this repository.  Per the spec
(§4.1, §6 `CandleSource`), the estimator fails with an insufficient-data
signal when the window holds fewer than `lookback` samples - which matches
the library behaviour the source relies on: with fewer rows than `length`,
`df.ta.natr(..., append=True)` appends no column and the lookup
`df["NATR_30"]` on line 66 raises, i.e. the read of the indicator values
fails before any strategy field is assigned.  `ind` is the indicator
computation on a sufficient window, kept abstract. -/
def estimatorOf (ind : List Candle → ℚ × ℚ) (lookback : ℕ)
    (window : List Candle) : Option (ℚ × ℚ) :=
  if window.length < lookback then none else some (ind window)

/-- `update_indicators` (lines 61-82): read `natr`/`rsi` from the candle
window at `candles_length` (failing on insufficient data, see
`estimatorOf`), then compose the new `bid_spread`, `ask_spread` and
`reference_price`.  `none` models the raised exception: no field is
updated in that case. -/
def update_indicators (cfg : Config) (ind : List Candle → ℚ × ℚ)
    (window : List Candle) (raw_price base quote : ℚ) : Option IndicatorUpdate :=
  (estimatorOf ind cfg.candles_length window).map fun s =>
    composeParams cfg s.1 s.2 raw_price base quote

/-- Line 99: `buy_price = min(self.reference_price * Decimal(1 - self.bid_spread), best_bid)`. -/
def buyPriceOf (reference_price bid_spread best_bid : ℚ) : ℚ :=
  min (reference_price * (1 - bid_spread)) best_bid

/-- Line 100: `sell_price = max(self.reference_price * Decimal(1 + self.ask_spread), best_ask)`. -/
def sellPriceOf (reference_price ask_spread best_ask : ℚ) : ℚ :=
  max (reference_price * (1 + ask_spread)) best_ask

/-- `create_proposal` (lines 95-106): always returns exactly the buy and
sell candidates at the clamped prices, both sized `order_amount`. -/
def create_proposal (cfg : Config)
    (reference_price bid_spread ask_spread best_bid best_ask : ℚ) :
    List OrderCandidate :=
  [⟨Side.buy, cfg.order_amount, buyPriceOf reference_price bid_spread best_bid⟩,
   ⟨Side.sell, cfg.order_amount, sellPriceOf reference_price ask_spread best_ask⟩]

/-- The persistent mutable strategy fields (class attributes mutated by
the tick: lines 31-34, 59, 69-70, 82). -/
structure StrategyState where
  bid_spread : ℚ
  ask_spread : ℚ
  reference_price : ℚ
  create_timestamp : ℕ
deriving DecidableEq, Repr

/-- The initial field values: `bid_spread = 0.0001`, `ask_spread = 0.0001`,
`reference_price = Decimal("1.0")`, `create_timestamp = 0`. -/
def initialState : StrategyState :=
  ⟨1/10000, 1/10000, 1, 0⟩

/-- The external inputs one tick reads: the candle window snapshot, the
connector mid price, best bid, best ask, and the two balances. -/
structure MarketInputs where
  window : List Candle
  raw_price : ℚ
  best_bid : ℚ
  best_ask : ℚ
  base : ℚ
  quote : ℚ
deriving DecidableEq, Repr

/-- What one `on_tick` call does: the resulting strategy state, whether
`cancel_all_orders` ran, and the order candidates handed to
`place_orders`. -/
structure TickOutcome where
  st : StrategyState
  cancelled : Bool
  orders : List OrderCandidate
deriving DecidableEq, Repr

/-- `on_tick` (lines 52-59).  When `current_timestamp >= create_timestamp`:
cancel all orders, recompute indicators, build and budget-adjust the
proposal, place it, and push `create_timestamp` forward by
`order_refresh_time`.  If the indicator read fails (insufficient data) the
exception aborts the tick after the cancellation: no field is updated and
nothing is placed.  When the timestamp gate is closed the tick does
nothing at all.  `adjust` is the external budget checker
(`adjust_proposal_to_budget`, line 108). -/
def on_tick (cfg : Config) (ind : List Candle → ℚ × ℚ)
    (adjust : List OrderCandidate → List OrderCandidate)
    (current_timestamp : ℕ) (m : MarketInputs) (s : StrategyState) : TickOutcome :=
  if s.create_timestamp ≤ current_timestamp then
    match update_indicators cfg ind m.window m.raw_price m.base m.quote with
    | none => ⟨s, true, []⟩
    | some u =>
        ⟨⟨u.bid_spread, u.ask_spread, u.reference_price,
            current_timestamp + cfg.order_refresh_time⟩, true,
          adjust (create_proposal cfg u.reference_price u.bid_spread
            u.ask_spread m.best_bid m.best_ask)⟩
  else ⟨s, false, []⟩

/-- A fixed candle value, for concrete instantiations. -/
def candle0 : Candle := ⟨1, 1, 1, 1, 1⟩

/-- A fixed, concrete indicator computation (natr = 0.01, rsi = 50), for
concrete instantiations of the abstract `ind` argument. -/
def constInd : List Candle → ℚ × ℚ := fun _ => (1/100, 50)

/-- Helper: whenever both balances and the price are non-negative, the
computed inventory ratio lies in `[0, 1]` (in the guarded branch it is a
quotient of a non-negative numerator by a larger positive denominator; in
the fallback branch it is `1/2`). -/
lemma inventoryRatioOf_mem_unit (base quote raw_price : ℚ)
    (hb : 0 ≤ base) (hq : 0 ≤ quote) (hp : 0 ≤ raw_price) :
    0 ≤ inventoryRatioOf base quote raw_price
      ∧ inventoryRatioOf base quote raw_price ≤ 1 := by
  unfold inventoryRatioOf totalValueOf
  split
  · rename_i h
    constructor
    · exact div_nonneg (mul_nonneg hb hp) (le_of_lt h)
    · rw [div_le_one h]
      linarith
  · norm_num

/-- Claim C1: for every reference price, spreads and book levels, the
quote builder returns the buy candidate at
`min(reference_price * (1 - bid_spread), best_bid)` and the sell candidate
at `max(reference_price * (1 + ask_spread), best_ask)`; consequently
`buy_price ≤ best_bid` and `sell_price ≥ best_ask` hold after clamping. -/
theorem create_proposal_clamps (cfg : Config) (rp bsp asp bb ba : ℚ) :
    (create_proposal cfg rp bsp asp bb ba).map OrderCandidate.price
        = [min (rp * (1 - bsp)) bb, max (rp * (1 + asp)) ba]
      ∧ buyPriceOf rp bsp bb ≤ bb
      ∧ ba ≤ sellPriceOf rp asp ba :=
  ⟨rfl, min_le_right _ _, le_max_right _ _⟩

/-- Claim C4 counterexample: with `reference_price = 100`, zero spreads
and `best_bid = best_ask = 100`, the clamped prices satisfy
`buy_price ≥ sell_price` (both are 100), yet `create_proposal` does not
fail or skip: it returns the two candidates at the crossed/touching
prices. -/
theorem create_proposal_no_cross_check :
    sellPriceOf 100 0 100 ≤ buyPriceOf 100 0 100
      ∧ create_proposal defaultConfig 100 0 0 100 100
          = [⟨Side.buy, 1/100, 100⟩, ⟨Side.sell, 1/100, 100⟩] := by
  constructor
  · unfold sellPriceOf buyPriceOf
    norm_num
  · unfold create_proposal buyPriceOf sellPriceOf defaultConfig
    norm_num

/-- Claim C4 (amended): the builder performs no crossed-pair check - even
on an input where `buy_price ≥ sell_price` after clamping, it silently
returns the pair of candidates at the clamped prices rather than skipping
the tick. -/
theorem create_proposal_returns_crossed_pair (cfg : Config)
    (rp bsp asp bb ba : ℚ)
    (_hcross : sellPriceOf rp asp ba ≤ buyPriceOf rp bsp bb) :
    create_proposal cfg rp bsp asp bb ba
      = [⟨Side.buy, cfg.order_amount, buyPriceOf rp bsp bb⟩,
         ⟨Side.sell, cfg.order_amount, sellPriceOf rp asp ba⟩] := rfl

/-- Witness for C4 amended: a concrete crossed instance. -/
theorem create_proposal_returns_crossed_pair_witness :
    sellPriceOf 100 0 100 ≤ buyPriceOf 100 0 100
      ∧ create_proposal defaultConfig 100 0 0 100 100
          = [⟨Side.buy, defaultConfig.order_amount, buyPriceOf 100 0 100⟩,
             ⟨Side.sell, defaultConfig.order_amount, sellPriceOf 100 0 100⟩] :=
  ⟨by unfold sellPriceOf buyPriceOf; norm_num,
   create_proposal_returns_crossed_pair defaultConfig 100 0 0 100 100
     (by unfold sellPriceOf buyPriceOf; norm_num)⟩

/-- Claim C5: the composer sets `bid_spread = natr * bid_spread_scalar`
and `ask_spread = natr * ask_spread_scalar` (scalars 100 and 50); both are
non-negative for `natr ≥ 0`, `natr = 0` yields zero spreads, and
`natr = 0.002` yields `bid_spread = 0.2`. -/
theorem spreads_linear_in_natr (natr : ℚ) (h : 0 ≤ natr) :
    bidSpreadOf defaultConfig natr = natr * 100
      ∧ askSpreadOf defaultConfig natr = natr * 50
      ∧ 0 ≤ bidSpreadOf defaultConfig natr
      ∧ 0 ≤ askSpreadOf defaultConfig natr
      ∧ bidSpreadOf defaultConfig 0 = 0
      ∧ askSpreadOf defaultConfig 0 = 0
      ∧ bidSpreadOf defaultConfig (1/500) = 1/5 :=
  ⟨rfl, rfl, mul_nonneg h (by norm_num [defaultConfig]),
   mul_nonneg h (by norm_num [defaultConfig]),
   by norm_num [bidSpreadOf, defaultConfig],
   by norm_num [askSpreadOf, defaultConfig],
   by norm_num [bidSpreadOf, defaultConfig]⟩

/-- Claim C2 counterexample: the composer does not fail explicitly on
`raw_mid_price ≤ 0`.  At `raw_price = 0` with otherwise valid inputs
(window of 30 samples, `natr = 1/100 > 0`, `rsi = 50`, `base = 0`,
`quote = 1000`), `update_indicators` succeeds and returns
`reference_price = 0` - a completed, non-failing composition with a
non-positive market price. -/
theorem composer_no_raw_price_guard :
    update_indicators defaultConfig constInd (List.replicate 30 candle0)
        0 0 1000
      = some ⟨1, 1/2, 0⟩ := by
  unfold update_indicators estimatorOf constInd composeParams bidSpreadOf
    askSpreadOf referencePriceOf shiftedPriceOf priceMultiplierOf skewOf
    inventoryRatioOf totalValueOf defaultConfig
  norm_num

/-- Claim C2 (amended): for valid inputs (`natr > 0`, `rsi ∈ [0,100]`,
`raw_mid_price > 0`, non-negative balances) the composed `bid_spread`,
`ask_spread` and `reference_price` are all strictly positive at the
source's configured scalars, and the composer guards `total_value ≤ 0` by
taking inventory ratio `1/2` (hence skew `0`); the composer performs no
check on `raw_mid_price` itself. -/
theorem composer_positive_params (natr rsi raw base quote b2 q2 p2 : ℚ)
    (hn : 0 < natr) (_hr0 : 0 ≤ rsi) (hr1 : rsi ≤ 100) (hp : 0 < raw)
    (hb : 0 ≤ base) (hq : 0 ≤ quote)
    (hguard : totalValueOf b2 q2 p2 ≤ 0) :
    (0 < (composeParams defaultConfig natr rsi raw base quote).bid_spread
      ∧ 0 < (composeParams defaultConfig natr rsi raw base quote).ask_spread
      ∧ 0 < (composeParams defaultConfig natr rsi raw base quote).reference_price)
    ∧ inventoryRatioOf b2 q2 p2 = 1/2
    ∧ skewOf defaultConfig b2 q2 p2 = 0 := by
  have hratio2 : inventoryRatioOf b2 q2 p2 = 1/2 := by
    unfold inventoryRatioOf
    rw [if_neg (not_lt.mpr hguard)]
  refine ⟨⟨?_, ?_, ?_⟩, hratio2, ?_⟩
  · show 0 < natr * defaultConfig.bid_spread_scalar
    have : (defaultConfig.bid_spread_scalar : ℚ) = 100 := rfl
    rw [this]
    positivity
  · show 0 < natr * defaultConfig.ask_spread_scalar
    have : (defaultConfig.ask_spread_scalar : ℚ) = 50 := rfl
    rw [this]
    positivity
  · show 0 < referencePriceOf defaultConfig raw rsi base quote
    have hmul : 0 < 1 + priceMultiplierOf defaultConfig rsi := by
      unfold priceMultiplierOf defaultConfig
      norm_num
      linarith
    have hmem := inventoryRatioOf_mem_unit base quote raw hb hq (le_of_lt hp)
    have hskew : 0 < 1 + skewOf defaultConfig base quote raw := by
      unfold skewOf defaultConfig
      norm_num
      nlinarith [hmem.1, hmem.2]
    unfold referencePriceOf shiftedPriceOf
    have h1 : 0 < raw * (1 + priceMultiplierOf defaultConfig rsi) :=
      mul_pos hp hmul
    exact mul_pos h1 hskew
  · unfold skewOf
    rw [hratio2]
    ring

/-- Witness for C2 amended at `natr = 1/100`, `rsi = 50`, `raw = 2000`,
`base = 1`, `quote = 1000`, guard instance `b2 = q2 = p2 = 0`. -/
theorem composer_positive_params_witness :
    (0 < (composeParams defaultConfig (1/100) 50 2000 1 1000).bid_spread
      ∧ 0 < (composeParams defaultConfig (1/100) 50 2000 1 1000).ask_spread
      ∧ 0 < (composeParams defaultConfig (1/100) 50 2000 1 1000).reference_price)
    ∧ inventoryRatioOf 0 0 0 = 1/2
    ∧ skewOf defaultConfig 0 0 0 = 0 :=
  composer_positive_params (1/100) 50 2000 1 1000 0 0 0
    (by norm_num) (by norm_num) (by norm_num) (by norm_num)
    (by norm_num) (by norm_num)
    (by unfold totalValueOf; norm_num)

/-- Claim C6: `price_multiplier = ((rsi - 50) / 50) * max_shift_spread *
trend_scalar`, bounded in magnitude by `max_shift_spread * |trend_scalar|`
for `rsi ∈ [0, 100]`; `shifted_price = raw_mid_price *
(1 + price_multiplier)`; and at `rsi = 75`, `max_shift_spread = 0.0005`,
`trend_scalar = -1` the multiplier is `-0.00025`. -/
theorem price_multiplier_formula_bound (cfg : Config) (rsi raw : ℚ)
    (h0 : 0 ≤ rsi) (h1 : rsi ≤ 100) (hms : 0 ≤ cfg.max_shift_spread) :
    priceMultiplierOf cfg rsi
        = ((rsi - 50) / 50) * cfg.max_shift_spread * cfg.trend_scalar
      ∧ |priceMultiplierOf cfg rsi| ≤ cfg.max_shift_spread * |cfg.trend_scalar|
      ∧ shiftedPriceOf cfg raw rsi = raw * (1 + priceMultiplierOf cfg rsi)
      ∧ priceMultiplierOf defaultConfig 75 = -(1/4000) := by
  refine ⟨rfl, ?_, rfl, by norm_num [priceMultiplierOf, defaultConfig]⟩
  have habs : |(rsi - 50) / 50| ≤ 1 := by
    rw [abs_div, abs_of_nonneg (by norm_num : (0:ℚ) ≤ 50),
      div_le_one (by norm_num : (0:ℚ) < 50)]
    rw [abs_le]
    constructor <;> linarith
  unfold priceMultiplierOf
  rw [abs_mul, abs_mul, abs_of_nonneg hms]
  have h2 : |(rsi - 50) / 50| * cfg.max_shift_spread
      ≤ 1 * cfg.max_shift_spread :=
    mul_le_mul_of_nonneg_right habs hms
  have h3 := mul_le_mul_of_nonneg_right h2 (abs_nonneg cfg.trend_scalar)
  linarith

/-- Witness for C6 at `cfg = defaultConfig`, `rsi = 75`, `raw = 2000`. -/
theorem price_multiplier_formula_bound_witness :
    priceMultiplierOf defaultConfig 75
        = ((75 - 50) / 50) * defaultConfig.max_shift_spread
            * defaultConfig.trend_scalar
      ∧ |priceMultiplierOf defaultConfig 75|
          ≤ defaultConfig.max_shift_spread * |defaultConfig.trend_scalar|
      ∧ shiftedPriceOf defaultConfig 2000 75
          = 2000 * (1 + priceMultiplierOf defaultConfig 75)
      ∧ priceMultiplierOf defaultConfig 75 = -(1/4000) :=
  price_multiplier_formula_bound defaultConfig 75 2000
    (by norm_num) (by norm_num) (by norm_num [defaultConfig])

/-- Claim C7: the composer computes
`inventory_ratio = base*price / (base*price + quote)` when the total value
is positive (and the ratio then lies in `[0,1]` for non-negative balances
and price), `1/2` when the total value is zero, and
`skew = (0.5 - inventory_ratio) * inventory_skew_strength`; with
`base = 0`, `quote = 1000` the ratio is `0` and the skew is
`0.5 * inventory_skew_strength = 1/4`. -/
theorem inventory_ratio_skew (base quote p b2 q2 p2 : ℚ)
    (hb : 0 ≤ base) (hq : 0 ≤ quote) (hp : 0 ≤ p)
    (hpos : 0 < totalValueOf base quote p)
    (hzero : totalValueOf b2 q2 p2 = 0) :
    (inventoryRatioOf base quote p = base * p / (base * p + quote)
      ∧ 0 ≤ inventoryRatioOf base quote p
      ∧ inventoryRatioOf base quote p ≤ 1)
    ∧ inventoryRatioOf b2 q2 p2 = 1/2
    ∧ skewOf defaultConfig base quote p
        = (1/2 - inventoryRatioOf base quote p) * (1/2)
    ∧ inventoryRatioOf 0 1000 p = 0
    ∧ skewOf defaultConfig 0 1000 p = 1/4 := by
  have hmem := inventoryRatioOf_mem_unit base quote p hb hq hp
  have hzratio : inventoryRatioOf 0 1000 p = 0 := by
    unfold inventoryRatioOf totalValueOf
    norm_num
  refine ⟨⟨?_, hmem.1, hmem.2⟩, ?_, rfl, hzratio, ?_⟩
  · unfold inventoryRatioOf
    rw [if_pos hpos]
    rfl
  · unfold inventoryRatioOf
    rw [if_neg (not_lt.mpr (le_of_eq hzero))]
  · unfold skewOf
    rw [hzratio]
    norm_num [defaultConfig]

/-- Witness for C7 at `base = 1`, `quote = 1000`, `p = 2000`, zero-total
instance `b2 = 0`, `q2 = 0`, `p2 = 5`. -/
theorem inventory_ratio_skew_witness :
    (inventoryRatioOf 1 1000 2000 = 1 * 2000 / (1 * 2000 + 1000)
      ∧ 0 ≤ inventoryRatioOf 1 1000 2000
      ∧ inventoryRatioOf 1 1000 2000 ≤ 1)
    ∧ inventoryRatioOf 0 0 5 = 1/2
    ∧ skewOf defaultConfig 1 1000 2000
        = (1/2 - inventoryRatioOf 1 1000 2000) * (1/2)
    ∧ inventoryRatioOf 0 1000 2000 = 0
    ∧ skewOf defaultConfig 0 1000 2000 = 1/4 :=
  inventory_ratio_skew 1 1000 2000 0 0 5
    (by norm_num) (by norm_num) (by norm_num)
    (by unfold totalValueOf; norm_num)
    (by unfold totalValueOf; norm_num)

/-- Witness for C5 at `natr = 1/500`. -/
theorem spreads_linear_in_natr_witness :
    bidSpreadOf defaultConfig (1/500) = (1/500) * 100
      ∧ askSpreadOf defaultConfig (1/500) = (1/500) * 50
      ∧ 0 ≤ bidSpreadOf defaultConfig (1/500)
      ∧ 0 ≤ askSpreadOf defaultConfig (1/500)
      ∧ bidSpreadOf defaultConfig 0 = 0
      ∧ askSpreadOf defaultConfig 0 = 0
      ∧ bidSpreadOf defaultConfig (1/500) = 1/5 :=
  spreads_linear_in_natr (1/500) (by norm_num)

/-- Claim C3: on a candle window with fewer than `candles_length` samples
the indicator read fails (insufficient data) and the tick hands no order
candidates to `place_orders`, for every indicator computation, budget
checker, timestamp and prior state: the strategy never quotes on a partial
indicator value. -/
theorem insufficient_data_no_quotes (cfg : Config)
    (ind : List Candle → ℚ × ℚ)
    (adjust : List OrderCandidate → List OrderCandidate)
    (t : ℕ) (m : MarketInputs) (s : StrategyState)
    (h : m.window.length < cfg.candles_length) :
    update_indicators cfg ind m.window m.raw_price m.base m.quote = none
      ∧ (on_tick cfg ind adjust t m s).orders = [] := by
  have hu : update_indicators cfg ind m.window m.raw_price m.base m.quote
      = none := by
    unfold update_indicators estimatorOf
    rw [if_pos h]
    rfl
  refine ⟨hu, ?_⟩
  unfold on_tick
  split
  · rw [hu]
  · rfl

/-- Witness for C3: a 5-sample window against `candles_length = 30`. -/
theorem insufficient_data_no_quotes_witness :
    update_indicators defaultConfig constInd (List.replicate 5 candle0)
        2000 1 1000 = none
      ∧ (on_tick defaultConfig constInd id 0
          ⟨List.replicate 5 candle0, 2000, 2001, 1999, 1, 1000⟩
          initialState).orders = [] :=
  insufficient_data_no_quotes defaultConfig constInd id 0
    ⟨List.replicate 5 candle0, 2000, 2001, 1999, 1, 1000⟩
    initialState (by simp [defaultConfig])

/-- Claim C8: whenever the computed inventory ratio is exactly `1/2`, the
skew is exactly `0` and the composed reference price equals the shifted
price exactly, for every configuration, market price and rsi. -/
theorem balanced_inventory_identity (cfg : Config)
    (raw rsi base quote : ℚ)
    (h : inventoryRatioOf base quote raw = 1/2) :
    skewOf cfg base quote raw = 0
      ∧ referencePriceOf cfg raw rsi base quote
          = shiftedPriceOf cfg raw rsi := by
  have hs : skewOf cfg base quote raw = 0 := by
    unfold skewOf
    rw [h]
    ring
  refine ⟨hs, ?_⟩
  unfold referencePriceOf
  rw [hs]
  ring

/-- Witness for C8 at `base = 1`, `quote = 1000`, `raw = 1000` (total
value `2000`, ratio `1000/2000 = 1/2`), `rsi = 75`. -/
theorem balanced_inventory_identity_witness :
    skewOf defaultConfig 1 1000 1000 = 0
      ∧ referencePriceOf defaultConfig 1000 75 1 1000
          = shiftedPriceOf defaultConfig 1000 75 :=
  balanced_inventory_identity defaultConfig 1000 75 1 1000
    (by unfold inventoryRatioOf totalValueOf; norm_num)

/-- Claim C9: holding all else fixed, strictly increasing `natr` strictly
increases both spreads (the configured scalars being positive), and
strictly increasing `rsi` above 50 with the source's `trend_scalar = -1`
strictly decreases `price_multiplier`. -/
theorem monotone_natr_rsi (cfg : Config) (n1 n2 r1 r2 : ℚ)
    (hbs : 0 < cfg.bid_spread_scalar) (has : 0 < cfg.ask_spread_scalar)
    (hn : n1 < n2) (_h50 : 50 < r1) (hr : r1 < r2) :
    bidSpreadOf cfg n1 < bidSpreadOf cfg n2
      ∧ askSpreadOf cfg n1 < askSpreadOf cfg n2
      ∧ priceMultiplierOf defaultConfig r2 < priceMultiplierOf defaultConfig r1 := by
  refine ⟨mul_lt_mul_of_pos_right hn hbs,
    mul_lt_mul_of_pos_right hn has, ?_⟩
  unfold priceMultiplierOf defaultConfig
  norm_num
  linarith

/-- Witness for C9 at `n1 = 0 < n2 = 1`, `r1 = 60 < r2 = 75`. -/
theorem monotone_natr_rsi_witness :
    bidSpreadOf defaultConfig 0 < bidSpreadOf defaultConfig 1
      ∧ askSpreadOf defaultConfig 0 < askSpreadOf defaultConfig 1
      ∧ priceMultiplierOf defaultConfig 75 < priceMultiplierOf defaultConfig 60 :=
  monotone_natr_rsi defaultConfig 0 1 60 75
    (by norm_num [defaultConfig]) (by norm_num [defaultConfig])
    (by norm_num) (by norm_num) (by norm_num)

/-- Claim C10: a tick whose `current_timestamp` is below
`create_timestamp` performs no action at all (no cancellation, no orders,
every strategy field unchanged); a completed cycle at time `t` sets
`create_timestamp = t + order_refresh_time`, so every later tick before
that deadline is again a no-op - at most one quote pair per refresh
interval. -/
theorem on_tick_refresh_discipline (cfg : Config)
    (ind : List Candle → ℚ × ℚ)
    (adjust : List OrderCandidate → List OrderCandidate)
    (m m' : MarketInputs) (s s0 : StrategyState) (t t' t0 : ℕ)
    (u : IndicatorUpdate)
    (hidle : t0 < s0.create_timestamp)
    (hdue : s.create_timestamp ≤ t)
    (hupd : update_indicators cfg ind m.window m.raw_price m.base m.quote
      = some u)
    (hskip : t' < t + cfg.order_refresh_time) :
    on_tick cfg ind adjust t0 m s0 = ⟨s0, false, []⟩
      ∧ (on_tick cfg ind adjust t m s).st.create_timestamp
          = t + cfg.order_refresh_time
      ∧ on_tick cfg ind adjust t' m' (on_tick cfg ind adjust t m s).st
          = ⟨(on_tick cfg ind adjust t m s).st, false, []⟩ := by
  have hdone : on_tick cfg ind adjust t m s
      = ⟨⟨u.bid_spread, u.ask_spread, u.reference_price,
            t + cfg.order_refresh_time⟩, true,
          adjust (create_proposal cfg u.reference_price u.bid_spread
            u.ask_spread m.best_bid m.best_ask)⟩ := by
    unfold on_tick
    rw [if_pos hdue, hupd]
  refine ⟨?_, ?_, ?_⟩
  · unfold on_tick
    rw [if_neg (not_le.mpr hidle)]
  · rw [hdone]
  · rw [hdone]
    unfold on_tick
    rw [if_neg (not_le.mpr hskip)]

/-- Witness for C10: idle instance at `t0 = 5` against
`create_timestamp = 100`; completed cycle at `t = 10` on a 30-sample
window, follow-up tick at `t' = 20 < 10 + 15`. -/
theorem on_tick_refresh_discipline_witness :
    on_tick defaultConfig constInd id 5
        ⟨List.replicate 30 candle0, 2000, 2001, 1999, 0, 1000⟩
        ⟨1, 1, 1, 100⟩
      = ⟨⟨1, 1, 1, 100⟩, false, []⟩
    ∧ (on_tick defaultConfig constInd id 10
        ⟨List.replicate 30 candle0, 2000, 2001, 1999, 0, 1000⟩
        ⟨1, 1, 1, 10⟩).st.create_timestamp
        = 10 + defaultConfig.order_refresh_time
    ∧ on_tick defaultConfig constInd id 20
        ⟨List.replicate 30 candle0, 2000, 2001, 1999, 0, 1000⟩
        (on_tick defaultConfig constInd id 10
          ⟨List.replicate 30 candle0, 2000, 2001, 1999, 0, 1000⟩
          ⟨1, 1, 1, 10⟩).st
      = ⟨(on_tick defaultConfig constInd id 10
          ⟨List.replicate 30 candle0, 2000, 2001, 1999, 0, 1000⟩
          ⟨1, 1, 1, 10⟩).st, false, []⟩ :=
  on_tick_refresh_discipline defaultConfig constInd id
    ⟨List.replicate 30 candle0, 2000, 2001, 1999, 0, 1000⟩
    ⟨List.replicate 30 candle0, 2000, 2001, 1999, 0, 1000⟩
    ⟨1, 1, 1, 10⟩ ⟨1, 1, 1, 100⟩ 10 20 5 ⟨1, 1/2, 2500⟩
    (by norm_num)
    (by norm_num)
    (by
      unfold update_indicators estimatorOf constInd composeParams
        bidSpreadOf askSpreadOf referencePriceOf shiftedPriceOf
        priceMultiplierOf skewOf inventoryRatioOf totalValueOf defaultConfig
      norm_num)
    (by norm_num [defaultConfig])

end PMM

